import Mathlib

/-!
# EggBot control engine: shallow embedding and verification

This file embeds the real-time control engine of the EggBot smoker
controller (`pi_native/`) in Lean 4 and proves the frozen claims about it.
Python floats are modelled by `ℚ`; Python `None` by `Option`; exceptions by
`Except String`.  Each definition is translated directly from the named
source function.
-/

/-! ## PID regulator (`pi_native/control/pid_controller.py`) -/

namespace PID

/-- PIDGains from `pi_native/config/pid.py`. -/
structure Gains where
  kp : ℚ
  ki : ℚ
  kd : ℚ
deriving DecidableEq

/-- PIDLimits from `pi_native/config/pid.py`, with its defaults. -/
structure Limits where
  output_min : ℚ := 0
  output_max : ℚ := 100
  integral_min : ℚ := -50
  integral_max : ℚ := 50
  derivative_filter : ℚ := 1/10
deriving DecidableEq

/-- PIDState from `pid_controller.py` (the `last_time` field is never
written by the controller and is omitted). -/
structure State where
  setpoint : ℚ := 0
  process_variable : ℚ := 0
  output : ℚ := 0
  error : ℚ := 0
  integral : ℚ := 0
  derivative : ℚ := 0
  last_error : ℚ := 0
deriving DecidableEq

/-- PIDController instance state: configuration, `PIDState`, operating mode,
timing, and the bounded error history used for derivative filtering. -/
structure Controller where
  gains : Gains
  limits : Limits := {}
  state : State := {}
  auto_mode : Bool := true
  enabled : Bool := true
  sample_time : ℚ := 1
  last_compute_time : ℚ := 0
  error_history : List ℚ := []
deriving DecidableEq

/-- Bound `max_error_history = 5` set in `PIDController.__init__`. -/
def max_error_history : Nat := 5

/-- PIDController.set_setpoint: store the new setpoint and reset the
integral term when it moves by strictly more than 5 °C. -/
def set_setpoint (c : Controller) (sp : ℚ) : Controller :=
  let old := c.state.setpoint
  let c1 : Controller := { c with state := { c.state with setpoint := sp } }
  if 5 < |sp - old| then
    { c1 with state := { c1.state with integral := 0 } }
  else
    c1

/-- PIDController._initialize_auto_mode: bumpless-transfer seeding.
Sets `last_error := 0`, `integral := output` clamped to the integral
limits, and clears the error history. -/
def init_auto_mode (c : Controller) : Controller :=
  { c with
    state := { c.state with
      last_error := 0
      integral := max c.limits.integral_min (min c.limits.integral_max c.state.output) }
    error_history := [] }

/-- PIDController.set_auto_mode: toggle automatic control, seeding the
state for bumpless transfer on a manual-to-auto transition. -/
def set_auto_mode (c : Controller) (auto : Bool) : Controller :=
  if auto = c.auto_mode then
    c
  else if auto then
    init_auto_mode { c with auto_mode := auto }
  else
    { c with auto_mode := auto }

/-- PIDController.enable: enable the controller, seeding bumpless state
when it was previously disabled. -/
def enable (c : Controller) : Controller :=
  if c.enabled then c else init_auto_mode { c with enabled := true }

/-- PIDController.disable. -/
def disable (c : Controller) : Controller :=
  { c with enabled := false }

/-- PIDController.compute: one call of the PID computation.  `dtArg` is
the optional `dt` argument; `current_time` stands for `time.time()`.
Returns the output together with the updated controller. -/
def compute (c : Controller) (pv : ℚ) (dtArg : Option ℚ) (current_time : ℚ) :
    ℚ × Controller :=
  if !c.enabled || !c.auto_mode then
    (c.state.output, c)
  else if dtArg.isNone && decide (c.last_compute_time = 0) then
    (c.state.output, { c with last_compute_time := current_time })
  else
    let dt := dtArg.getD (current_time - c.last_compute_time)
    if dt < c.sample_time then
      (c.state.output, c)
    else
      let error := c.state.setpoint - pv
      let proportional := c.gains.kp * error
      let integral :=
        max c.limits.integral_min
          (min c.limits.integral_max (c.state.integral + c.gains.ki * error * dt))
      let derivative_state :=
        if 0 < dt then
          let derivative_raw := (error - c.state.last_error) / dt
          if c.error_history = [] then
            derivative_raw
          else
            c.limits.derivative_filter * derivative_raw +
              (1 - c.limits.derivative_filter) * c.state.derivative
        else
          c.state.derivative
      let derivative := if 0 < dt then c.gains.kd * derivative_state else 0
      let feedforward := (c.limits.output_max + c.limits.output_min) / 2
      let output :=
        max c.limits.output_min
          (min c.limits.output_max (feedforward + proportional + integral + derivative))
      let hist0 := c.error_history ++ [error]
      let hist := if max_error_history < hist0.length then hist0.tail else hist0
      (output,
        { c with
          last_compute_time := current_time
          state := { c.state with
            process_variable := pv
            error := error
            integral := integral
            derivative := derivative_state
            output := output
            last_error := error }
          error_history := hist })

end PID

/-! ## Servo actuator (`pi_native/hardware/servo_controller.py`) -/

namespace Servo

/-- Servo motion state: current and target position in percent, plus the
movement parameters from `ServoConfig` (defaults `max_speed = 30`,
`position_tolerance = 2`). -/
structure State where
  current_position : ℚ := 0
  target_position : ℚ := 0
  max_speed : ℚ := 30
  position_tolerance : ℚ := 2
deriving DecidableEq

/-- ServoController.set_position_percent: clamp the requested percentage
to `[0, 100]` and store it as the target. -/
def set_position_percent (s : State) (percent : ℚ) : State :=
  { s with target_position := max 0 (min 100 percent) }

/-- One iteration of ServoController._position_control_loop: when outside
the position tolerance, advance the current position toward the target by
at most `max_speed * 0.05` (the 50 ms tick), never past the target. -/
def position_control_step (s : State) : State :=
  if s.position_tolerance < |s.current_position - s.target_position| then
    let max_step := s.max_speed * (1/20)
    if s.current_position < s.target_position then
      { s with current_position :=
          s.current_position + min max_step (s.target_position - s.current_position) }
    else
      { s with current_position :=
          s.current_position - min max_step (s.current_position - s.target_position) }
  else
    s

end Servo

/-! ## Thermistor math (`pi_native/hardware/thermistor_calc.py`) -/

namespace Therm

/-- ThermistorCalculator.voltage_to_resistance: divider inversion
`R = r_series * Vcc / V - r_series`, rejecting voltages at or outside
`(0.001, supply_voltage)`.  The function reads only the fixed supply
voltage and mutates nothing, so a failing call changes no state. -/
def voltage_to_resistance (supply_voltage voltage series_resistor : ℚ) :
    Except String ℚ :=
  if voltage ≤ 1/1000 ∨ supply_voltage ≤ voltage then
    .error "Invalid voltage"
  else
    .ok (series_resistor * supply_voltage / voltage - series_resistor)

/-- ThermistorCalculator.validate_reading: accept a temperature inside the
probe's practical range `[min_temp, max_temp]`.  The range itself is the
pair produced by `get_temperature_range` (Steinhart-Hart logarithms over
the divider and supply voltage — transcendental, so the already-computed
pair is taken as the argument here; the code's fallback pair is
`(-40, 150)`). -/
def validate_reading (min_temp max_temp temperature : ℚ) : Bool :=
  decide (min_temp ≤ temperature ∧ temperature ≤ max_temp)

end Therm

/-! ## Temperature monitor (`pi_native/control/temperature_monitor.py`) -/

namespace Monitor

/-- TemperatureReading: one processed probe sample. -/
structure Reading where
  channel : Nat
  probe_name : String
  temperature_c : ℚ
  voltage : ℚ
  timestamp : ℚ
  is_valid : Bool
deriving DecidableEq

/-- ProbeStatus: rolling per-probe state.  The `float('inf')` /
`float('-inf')` sentinels of `min_temp` / `max_temp` are modelled as
`none` (the controller's own `get_probe_status` maps them back to `None`). -/
structure ProbeStatus where
  probe_name : String
  channel : Nat
  is_connected : Bool := false
  last_reading : Option Reading := none
  last_update : Option ℚ := none
  consecutive_errors : Nat := 0
  total_readings : Nat := 0
  average_temp : ℚ := 0
  min_temp : Option ℚ := none
  max_temp : Option ℚ := none
  temperature_history : List ℚ := []
deriving DecidableEq

/-- Filtered temperature computed at the top of
TemperatureMonitor._update_probe_status: a valid reading following an
earlier stored reading is low-pass filtered against it, with the more
aggressive `alpha = 0.3` when the apparent rate exceeds
`max_temp_change_per_second`. -/
def filtered_temp (filter_alpha max_change : ℚ) (probe : ProbeStatus)
    (reading : Reading) : ℚ :=
  match probe.last_reading with
  | none => reading.temperature_c
  | some prev =>
    if reading.is_valid then
      let temp_diff := |reading.temperature_c - prev.temperature_c|
      let time_diff := reading.timestamp - prev.timestamp
      if 0 < time_diff then
        let alpha :=
          if max_change < temp_diff / time_diff then (3 : ℚ)/10 else filter_alpha
        alpha * reading.temperature_c + (1 - alpha) * prev.temperature_c
      else
        reading.temperature_c
    else
      reading.temperature_c

/-- TemperatureMonitor._update_probe_status: store the (filtered) reading,
update statistics for a valid sample, or the error counters for an invalid
one.  The returned `Bool` records whether the disconnection WARNING alert
was emitted.  `filter_alpha` and `max_change` are the monitor fields
`filter_alpha = 0.7` and `max_temp_change_per_second = 10`. -/
def update_probe_status (filter_alpha max_change : ℚ) (probe : ProbeStatus)
    (reading : Reading) : ProbeStatus × Bool :=
  let stored : Reading :=
    { reading with temperature_c := filtered_temp filter_alpha max_change probe reading }
  let probe1 : ProbeStatus :=
    { probe with
      last_reading := some stored
      last_update := some stored.timestamp
      total_readings := probe.total_readings + 1 }
  if stored.is_valid then
    let hist0 := probe1.temperature_history ++ [stored.temperature_c]
    let hist := if 100 < hist0.length then hist0.tail else hist0
    ({ probe1 with
        consecutive_errors := 0
        is_connected := true
        min_temp := some ((probe1.min_temp.map (min stored.temperature_c)).getD stored.temperature_c)
        max_temp := some ((probe1.max_temp.map (max stored.temperature_c)).getD stored.temperature_c)
        temperature_history := hist
        average_temp :=
          if hist = [] then probe1.average_temp else hist.sum / (hist.length : ℚ) },
      false)
  else
    let ce := probe1.consecutive_errors + 1
    if 5 < ce then
      ({ probe1 with consecutive_errors := ce, is_connected := false }, true)
    else
      ({ probe1 with consecutive_errors := ce }, false)

/-- TemperatureMonitor.get_current_temperatures restricted to one probe:
its entry is the last reading's temperature when that reading exists and
is valid, and `None` otherwise. -/
def current_temperature (probe : ProbeStatus) : Option ℚ :=
  match probe.last_reading with
  | some r => if r.is_valid then some r.temperature_c else none
  | none => none

end Monitor

/-! ## EggBot engine (`pi_native/control/eggbot_controller.py`) -/

namespace Engine

/-- ControllerState snapshot fields used by the claims (probe temperatures
other than the pit, the gains triple and the timestamp are carried along
unchanged by every operation below and are omitted). -/
structure CState where
  pit_temp_c : Option ℚ := none
  setpoint_c : ℚ := 110
  damper_percent : ℚ := 0
  control_mode : String := "manual"
  pid_output : ℚ := 0
  pid_error : ℚ := 0
  safety_shutdown : Bool := false
deriving DecidableEq

/-- EggBotController composite: the aggregator snapshot plus the owned
regulator, servo, and the monitor's own shutdown flag. -/
structure Bot where
  state : CState := {}
  pid : PID.Controller
  servo : Servo.State := {}
  monitor_shutdown : Bool := false
deriving DecidableEq

/-- EggBotController.set_damper_percent: clamp to `[0, 100]`, force manual
mode, store the clamped value in the snapshot, command the servo, and drop
the regulator to manual. -/
def set_damper_percent (e : Bot) (percent : ℚ) : Bot :=
  let p := max 0 (min 100 percent)
  { e with
    state := { e.state with control_mode := "manual", damper_percent := p }
    servo := Servo.set_position_percent e.servo p
    pid := PID.set_auto_mode e.pid false }

/-- EggBotController._emergency_shutdown: latch the shutdown flag, force
manual mode, command the servo to 0 %, disable the regulator. -/
def emergency_shutdown (e : Bot) : Bot :=
  { e with
    state := { e.state with safety_shutdown := true, control_mode := "manual" }
    servo := Servo.set_position_percent e.servo 0
    pid := PID.disable e.pid }

/-- EggBotController.set_control_mode: reject unknown modes and reject
`automatic` while shut down (the raise happens before any mutation, so an
error leaves the state untouched); otherwise store the mode and switch the
regulator accordingly. -/
def set_control_mode (e : Bot) (mode : String) : Except String Bot :=
  if mode ≠ "manual" ∧ mode ≠ "automatic" then
    .error ("Invalid control mode: " ++ mode)
  else if e.state.safety_shutdown = true ∧ mode = "automatic" then
    .error "Cannot switch to automatic mode during safety shutdown"
  else
    let e1 : Bot := { e with state := { e.state with control_mode := mode } }
    if mode = "automatic" then
      .ok { e1 with pid := PID.enable (PID.set_auto_mode e1.pid true) }
    else
      .ok { e1 with pid := PID.set_auto_mode e1.pid false }

/-- EggBotController.reset_safety_shutdown: clear the flag on the monitor
and on the snapshot; nothing else changes. -/
def reset_safety_shutdown (e : Bot) : Bot :=
  { e with
    monitor_shutdown := false
    state := { e.state with safety_shutdown := false } }

/-- EggBotController._run_pid_control: do nothing unless the mode is
automatic, no shutdown is latched, and a pit temperature is present;
otherwise run the PID on the pit temperature, command the servo with the
output, and copy output, error and the servo's actual position into the
snapshot. -/
def run_pid_control (e : Bot) (current_time : ℚ) : Bot :=
  if e.state.control_mode ≠ "automatic" ∨ e.state.safety_shutdown = true ∨
      e.state.pit_temp_c = none then
    e
  else
    match e.state.pit_temp_c with
    | none => e
    | some pit =>
      let res := PID.compute e.pid pit none current_time
      let servo1 := Servo.set_position_percent e.servo res.1
      { e with
        pid := res.2
        servo := servo1
        state := { e.state with
          pid_output := res.1
          pid_error := res.2.state.error
          damper_percent := servo1.current_position } }

end Engine

/-! ## Shared helper lemmas -/

/-- Clamping with `max lo (min hi x)` lands in `[lo, hi]` when `lo ≤ hi`. -/
theorem clamp_mem (lo hi x : ℚ) (h : lo ≤ hi) :
    lo ≤ max lo (min hi x) ∧ max lo (min hi x) ≤ hi :=
  ⟨le_max_left _ _, max_le h (min_le_left _ _)⟩

/-- Clamping into the damper envelope `[0, 100]`. -/
theorem clamp01_mem (x : ℚ) : 0 ≤ max 0 (min 100 x) ∧ max 0 (min 100 x) ≤ 100 :=
  clamp_mem 0 100 x (by norm_num)

/-- One motion tick never leaves the closed interval spanned by the current
and the target position (for a nonnegative speed limit). -/
theorem position_step_between (s : Servo.State) (hspeed : 0 ≤ s.max_speed) :
    min s.current_position s.target_position ≤
      (Servo.position_control_step s).current_position ∧
    (Servo.position_control_step s).current_position ≤
      max s.current_position s.target_position := by
  have hstep : 0 ≤ s.max_speed * (1/20) := mul_nonneg hspeed (by norm_num)
  unfold Servo.position_control_step
  split_ifs with h1 h2
  · have hmin1 : min (s.max_speed * (1/20)) (s.target_position - s.current_position) ≤
        s.target_position - s.current_position := min_le_right _ _
    have hmin0 : 0 ≤ min (s.max_speed * (1/20)) (s.target_position - s.current_position) :=
      le_min hstep (by linarith)
    refine ⟨?_, ?_⟩
    · show min s.current_position s.target_position ≤
        s.current_position + min (s.max_speed * (1/20)) (s.target_position - s.current_position)
      have := min_le_left s.current_position s.target_position
      linarith
    · show s.current_position + min (s.max_speed * (1/20)) (s.target_position - s.current_position) ≤
        max s.current_position s.target_position
      have := le_max_right s.current_position s.target_position
      linarith
  · have hle : s.target_position ≤ s.current_position := le_of_not_lt h2
    have hmin1 : min (s.max_speed * (1/20)) (s.current_position - s.target_position) ≤
        s.current_position - s.target_position := min_le_right _ _
    have hmin0 : 0 ≤ min (s.max_speed * (1/20)) (s.current_position - s.target_position) :=
      le_min hstep (by linarith)
    refine ⟨?_, ?_⟩
    · show min s.current_position s.target_position ≤
        s.current_position - min (s.max_speed * (1/20)) (s.current_position - s.target_position)
      have := min_le_right s.current_position s.target_position
      linarith
    · show s.current_position - min (s.max_speed * (1/20)) (s.current_position - s.target_position) ≤
        max s.current_position s.target_position
      have := le_max_left s.current_position s.target_position
      linarith
  · exact ⟨min_le_left _ _, le_max_left _ _⟩

/-- The snapshot `damper_percent` after one call of `_run_pid_control` is
either the previous snapshot value (no-op branch) or the servo's current
position. -/
theorem run_pid_damper_cases (e : Engine.Bot) (t : ℚ) :
    (Engine.run_pid_control e t).state.damper_percent = e.state.damper_percent ∨
    (Engine.run_pid_control e t).state.damper_percent = e.servo.current_position := by
  unfold Engine.run_pid_control
  split_ifs with h
  · exact Or.inl rfl
  · match hp : e.state.pit_temp_c with
    | none => exact Or.inl rfl
    | some pit =>
      right
      simp only [hp, Servo.set_position_percent]

/-! ## Claim theorems -/

/-- C1: the damper position envelope always holds. `set_damper_percent`
clamps its argument into `[0, 100]` before storing and commanding it,
`set_position_percent` clamps its target likewise, and each motion-thread
tick moves `current_position` only between the previous position and the
target, so positions never leave `[0, 100]`; the `damper_percent` written
into the aggregator snapshot by a control tick stays in `[0, 100]` as
well. -/
theorem c1_damper_envelope (e : Engine.Bot) (p q t : ℚ) (s : Servo.State)
    (hspeed : 0 ≤ s.max_speed)
    (hc0 : 0 ≤ s.current_position) (hc1 : s.current_position ≤ 100)
    (ht0 : 0 ≤ s.target_position) (ht1 : s.target_position ≤ 100)
    (hd0 : 0 ≤ e.state.damper_percent) (hd1 : e.state.damper_percent ≤ 100)
    (hs0 : 0 ≤ e.servo.current_position) (hs1 : e.servo.current_position ≤ 100) :
    (0 ≤ (Engine.set_damper_percent e p).state.damper_percent ∧
      (Engine.set_damper_percent e p).state.damper_percent ≤ 100) ∧
    (0 ≤ (Engine.set_damper_percent e p).servo.target_position ∧
      (Engine.set_damper_percent e p).servo.target_position ≤ 100) ∧
    (0 ≤ (Servo.set_position_percent s q).target_position ∧
      (Servo.set_position_percent s q).target_position ≤ 100) ∧
    (min s.current_position s.target_position ≤
        (Servo.position_control_step s).current_position ∧
      (Servo.position_control_step s).current_position ≤
        max s.current_position s.target_position) ∧
    (0 ≤ (Servo.position_control_step s).current_position ∧
      (Servo.position_control_step s).current_position ≤ 100) ∧
    (0 ≤ (Engine.run_pid_control e t).state.damper_percent ∧
      (Engine.run_pid_control e t).state.damper_percent ≤ 100) := by
  obtain ⟨hb0, hb1⟩ := position_step_between s hspeed
  refine ⟨?_, ?_, ?_, ⟨hb0, hb1⟩, ⟨?_, ?_⟩, ?_⟩
  · exact clamp01_mem p
  · show 0 ≤ max 0 (min 100 (max 0 (min 100 p))) ∧ _ ≤ 100
    exact clamp01_mem _
  · exact clamp01_mem q
  · exact le_trans (le_min hc0 ht0) hb0
  · exact le_trans hb1 (max_le hc1 ht1)
  · rcases run_pid_damper_cases e t with h | h <;> rw [h]
    · exact ⟨hd0, hd1⟩
    · exact ⟨hs0, hs1⟩

/-- Witness for C1 at a concrete engine and servo state. -/
def c1bot : Engine.Bot := { pid := { gains := { kp := 2, ki := 1/10, kd := 1 } } }

/-- Servo state used by the C1 witness. -/
def c1servo : Servo.State := { current_position := 10, target_position := 90 }

theorem c1_witness :
    (0 ≤ (Engine.set_damper_percent c1bot 150).state.damper_percent ∧
      (Engine.set_damper_percent c1bot 150).state.damper_percent ≤ 100) ∧
    (0 ≤ (Servo.position_control_step c1servo).current_position ∧
      (Servo.position_control_step c1servo).current_position ≤ 100) :=
  have h := c1_damper_envelope c1bot 150 (-3) 0 c1servo (by decide) (by decide)
    (by decide) (by decide) (by decide) (by decide) (by decide) (by decide) (by decide)
  ⟨h.1, h.2.2.2.2.1⟩

/-- C2: `_emergency_shutdown` (invoked on a CRITICAL alert) establishes,
before returning: `safety_shutdown = true`, `control_mode = "manual"`, the
regulator disabled — so `compute` returns the last output and changes
nothing — and the servo target commanded to 0 %. -/
theorem c2_emergency_shutdown (e : Engine.Bot) (pv : ℚ) (dtArg : Option ℚ) (t : ℚ) :
    (Engine.emergency_shutdown e).state.safety_shutdown = true ∧
    (Engine.emergency_shutdown e).state.control_mode = "manual" ∧
    (Engine.emergency_shutdown e).pid.enabled = false ∧
    (PID.compute (Engine.emergency_shutdown e).pid pv dtArg t).1 =
      (Engine.emergency_shutdown e).pid.state.output ∧
    (PID.compute (Engine.emergency_shutdown e).pid pv dtArg t).2 =
      (Engine.emergency_shutdown e).pid ∧
    (Engine.emergency_shutdown e).servo.target_position = 0 := by
  refine ⟨rfl, rfl, rfl, ?_, ?_, ?_⟩
  · simp [Engine.emergency_shutdown, PID.disable, PID.compute]
  · simp [Engine.emergency_shutdown, PID.disable, PID.compute]
  · show max 0 (min 100 0) = 0
    norm_num

/-- C3: every `compute` call that performs a new calculation (controller
enabled, auto mode, `dt ≥ sample_time`) leaves the stored integral inside
`[integral_min, integral_max]` and returns an output — equal to the stored
output — inside `[output_min, output_max]`. -/
theorem c3_pid_clamps (c : PID.Controller) (pv dt t : ℚ)
    (hen : c.enabled = true) (hauto : c.auto_mode = true)
    (hdt : c.sample_time ≤ dt)
    (hI : c.limits.integral_min ≤ c.limits.integral_max)
    (hO : c.limits.output_min ≤ c.limits.output_max) :
    c.limits.integral_min ≤ (PID.compute c pv (some dt) t).2.state.integral ∧
    (PID.compute c pv (some dt) t).2.state.integral ≤ c.limits.integral_max ∧
    c.limits.output_min ≤ (PID.compute c pv (some dt) t).1 ∧
    (PID.compute c pv (some dt) t).1 ≤ c.limits.output_max ∧
    (PID.compute c pv (some dt) t).1 = (PID.compute c pv (some dt) t).2.state.output := by
  have hcond : (!c.enabled || !c.auto_mode) = false := by rw [hen, hauto]; rfl
  have hnlt : ¬ dt < c.sample_time := not_lt.mpr hdt
  simp only [PID.compute, hcond, Bool.false_eq_true, if_false, Option.isNone_some,
    Bool.false_and, Option.getD_some, hnlt]
  exact ⟨(clamp_mem _ _ _ hI).1, (clamp_mem _ _ _ hI).2,
    (clamp_mem _ _ _ hO).1, (clamp_mem _ _ _ hO).2, trivial⟩

/-- Controller used by the C3 witness (the `conservative` preset gains). -/
def c3c : PID.Controller := { gains := { kp := 2, ki := 1/10, kd := 1 } }

theorem c3_witness :
    c3c.limits.integral_min ≤ (PID.compute c3c 100 (some 2) 5).2.state.integral ∧
    (PID.compute c3c 100 (some 2) 5).2.state.integral ≤ c3c.limits.integral_max ∧
    c3c.limits.output_min ≤ (PID.compute c3c 100 (some 2) 5).1 ∧
    (PID.compute c3c 100 (some 2) 5).1 ≤ c3c.limits.output_max ∧
    (PID.compute c3c 100 (some 2) 5).1 = (PID.compute c3c 100 (some 2) 5).2.state.output :=
  c3_pid_clamps c3c 100 2 5 rfl rfl (by decide) (by decide) (by decide)

/-- C7: `set_setpoint` resets the integral to 0 exactly when the setpoint
moves by strictly more than 5 °C, leaves it unchanged otherwise, and
always stores the new setpoint. -/
theorem c7_setpoint_reset (c : PID.Controller) (sp : ℚ) :
    (5 < |sp - c.state.setpoint| → (PID.set_setpoint c sp).state.integral = 0) ∧
    (|sp - c.state.setpoint| ≤ 5 →
      (PID.set_setpoint c sp).state.integral = c.state.integral) ∧
    (PID.set_setpoint c sp).state.setpoint = sp := by
  simp only [PID.set_setpoint]
  refine ⟨fun h => ?_, fun h => ?_, ?_⟩
  · rw [if_pos h]
  · rw [if_neg (not_lt.mpr h)]
  · split_ifs <;> rfl

/-- Controller used by the C7 witness: converged near 110 °C with a
nonzero accumulated integral. -/
def c7c : PID.Controller :=
  { gains := { kp := 2, ki := 1/10, kd := 1 }
    state := { setpoint := 110, integral := 12 } }

theorem c7_witness :
    (PID.set_setpoint c7c 130).state.integral = 0 ∧
    (PID.set_setpoint c7c 112).state.integral = c7c.state.integral ∧
    (PID.set_setpoint c7c 130).state.setpoint = 130 :=
  ⟨(c7_setpoint_reset c7c 130).1 (by show (5:ℚ) < |(130:ℚ) - 110|; norm_num),
    (c7_setpoint_reset c7c 112).2.1 (by show |(112:ℚ) - 110| ≤ 5; norm_num),
    (c7_setpoint_reset c7c 130).2.2⟩

/-- C8: bumpless transfer.  A manual-to-automatic transition sets the
integral to the current output clamped into the integral limits, clears
the error history and resets `last_error` to 0; a transition to manual
changes none of the state. -/
theorem c8_bumpless (c : PID.Controller) :
    (c.auto_mode = false →
      (PID.set_auto_mode c true).state.integral =
        max c.limits.integral_min (min c.limits.integral_max c.state.output) ∧
      (PID.set_auto_mode c true).error_history = [] ∧
      (PID.set_auto_mode c true).state.last_error = 0 ∧
      (PID.set_auto_mode c true).auto_mode = true) ∧
    (c.auto_mode = true →
      (PID.set_auto_mode c false).state = c.state ∧
      (PID.set_auto_mode c false).error_history = c.error_history ∧
      (PID.set_auto_mode c false).enabled = c.enabled ∧
      (PID.set_auto_mode c false).auto_mode = false) := by
  constructor
  · intro h
    simp [PID.set_auto_mode, PID.init_auto_mode, h]
  · intro h
    simp [PID.set_auto_mode, h]

/-- Controller used by the C8 witness: manual mode, damper output 40 %. -/
def c8c : PID.Controller :=
  { gains := { kp := 2, ki := 1/10, kd := 1 }
    auto_mode := false
    state := { output := 40 }
    error_history := [1, 2] }

theorem c8_witness :
    (PID.set_auto_mode c8c true).state.integral = 40 ∧
    (PID.set_auto_mode c8c true).error_history = [] ∧
    (PID.set_auto_mode c8c true).state.last_error = 0 ∧
    (PID.set_auto_mode c8c true).auto_mode = true :=
  have h := (c8_bumpless c8c).1 rfl
  ⟨h.1.trans (by decide), h.2.1, h.2.2.1, h.2.2.2⟩

/-- C4: `set_control_mode "automatic"` fails while `safety_shutdown` is
latched, leaving the state untouched (the error is raised before any
mutation); `reset_safety_shutdown` clears the flag on both the snapshot
and the monitor without touching the control mode; and after the reset the
same call succeeds and sets the mode to automatic. -/
theorem c4_mode_conflict (e : Engine.Bot) (h : e.state.safety_shutdown = true) :
    Engine.set_control_mode e "automatic" =
      .error "Cannot switch to automatic mode during safety shutdown" ∧
    (Engine.reset_safety_shutdown e).state.control_mode = e.state.control_mode ∧
    (Engine.reset_safety_shutdown e).state.safety_shutdown = false ∧
    (Engine.reset_safety_shutdown e).monitor_shutdown = false ∧
    (∃ e1, Engine.set_control_mode (Engine.reset_safety_shutdown e) "automatic" = .ok e1 ∧
      e1.state.control_mode = "automatic" ∧ e1.state.safety_shutdown = false) := by
  refine ⟨?_, rfl, rfl, rfl, ?_⟩
  · unfold Engine.set_control_mode
    rw [if_neg (by simp), if_pos ⟨h, rfl⟩]
  · have hok : Engine.set_control_mode (Engine.reset_safety_shutdown e) "automatic" =
        .ok { Engine.reset_safety_shutdown e with
          state := { (Engine.reset_safety_shutdown e).state with control_mode := "automatic" }
          pid := PID.enable (PID.set_auto_mode (Engine.reset_safety_shutdown e).pid true) } := by
      unfold Engine.set_control_mode
      rw [if_neg (by simp), if_neg (by simp [Engine.reset_safety_shutdown]), if_pos rfl]
    exact ⟨_, hok, rfl, rfl⟩

/-- Engine used by the C4 witness: shutdown latched, manual mode. -/
def c4bot : Engine.Bot :=
  { pid := { gains := { kp := 2, ki := 1/10, kd := 1 } }
    state := { safety_shutdown := true, control_mode := "manual" } }

theorem c4_witness :
    Engine.set_control_mode c4bot "automatic" =
      .error "Cannot switch to automatic mode during safety shutdown" ∧
    (Engine.reset_safety_shutdown c4bot).state.control_mode = "manual" ∧
    (∃ e1, Engine.set_control_mode (Engine.reset_safety_shutdown c4bot) "automatic" = .ok e1 ∧
      e1.state.control_mode = "automatic" ∧ e1.state.safety_shutdown = false) :=
  have h := c4_mode_conflict c4bot rfl
  ⟨h.1, h.2.1, h.2.2.2.2⟩

/-- C6: `voltage_to_resistance` fails exactly when `v ≤ 0.001` or
`v ≥ supply_voltage`, and for every voltage strictly inside those bounds
returns exactly `r_series * Vcc / v - r_series`.  The embedded function is
pure, so a failing call changes no state. -/
theorem c6_voltage_to_resistance (vcc v r : ℚ) :
    ((∃ R, Therm.voltage_to_resistance vcc v r = .ok R) ↔ 1/1000 < v ∧ v < vcc) ∧
    (1/1000 < v → v < vcc →
      Therm.voltage_to_resistance vcc v r = .ok (r * vcc / v - r)) := by
  have hval : ∀ (_ : 1/1000 < v) (_ : v < vcc),
      Therm.voltage_to_resistance vcc v r = .ok (r * vcc / v - r) := by
    intro h1 h2
    unfold Therm.voltage_to_resistance
    have hn : ¬ (v ≤ 1/1000 ∨ vcc ≤ v) := by push_neg; exact ⟨h1, h2⟩
    rw [if_neg hn]
  refine ⟨⟨?_, ?_⟩, hval⟩
  · rintro ⟨R, hR⟩
    by_contra hc
    rw [not_and_or, not_lt, not_lt] at hc
    unfold Therm.voltage_to_resistance at hR
    rw [if_pos hc] at hR
    exact Except.noConfusion hR
  · rintro ⟨h1, h2⟩
    exact ⟨_, hval h1 h2⟩

theorem c6_witness :
    Therm.voltage_to_resistance (33/10) (33/20) 10000 = .ok 10000 := by
  have h := (c6_voltage_to_resistance (33/10) (33/20) 10000).2 (by norm_num) (by norm_num)
  rw [h]
  simp only [Except.ok.injEq]
  norm_num

/-- C9: processing an invalid sample leaves `min_temp`, `max_temp`, the
rolling mean and the temperature history unchanged, increments
`consecutive_errors` by exactly one, and marks the probe disconnected with
a WARNING alert once the count exceeds 5 (otherwise the connection flag is
untouched and no alert fires); a valid sample resets the count to 0 and
sets the probe connected. -/
theorem c9_invalid_sample_frame (a m : ℚ) (probe : Monitor.ProbeStatus)
    (reading : Monitor.Reading) :
    (reading.is_valid = false →
      (Monitor.update_probe_status a m probe reading).1.min_temp = probe.min_temp ∧
      (Monitor.update_probe_status a m probe reading).1.max_temp = probe.max_temp ∧
      (Monitor.update_probe_status a m probe reading).1.average_temp = probe.average_temp ∧
      (Monitor.update_probe_status a m probe reading).1.temperature_history =
        probe.temperature_history ∧
      (Monitor.update_probe_status a m probe reading).1.consecutive_errors =
        probe.consecutive_errors + 1 ∧
      (5 < probe.consecutive_errors + 1 →
        (Monitor.update_probe_status a m probe reading).1.is_connected = false ∧
        (Monitor.update_probe_status a m probe reading).2 = true) ∧
      (probe.consecutive_errors + 1 ≤ 5 →
        (Monitor.update_probe_status a m probe reading).1.is_connected =
          probe.is_connected ∧
        (Monitor.update_probe_status a m probe reading).2 = false)) ∧
    (reading.is_valid = true →
      (Monitor.update_probe_status a m probe reading).1.consecutive_errors = 0 ∧
      (Monitor.update_probe_status a m probe reading).1.is_connected = true) := by
  obtain ⟨ch, pn, tc, vo, ts, iv⟩ := reading
  constructor
  · rintro rfl
    simp only [Monitor.update_probe_status, Bool.false_eq_true, if_false]
    split_ifs with h5
    · exact ⟨rfl, rfl, rfl, rfl, rfl, fun _ => ⟨rfl, rfl⟩, fun h6 => absurd h5 (by omega)⟩
    · exact ⟨rfl, rfl, rfl, rfl, rfl, fun h6 => absurd h6 h5, fun _ => ⟨rfl, rfl⟩⟩
  · rintro rfl
    simp [Monitor.update_probe_status]

/-- Probe used by the C9 witness: five errors already accumulated, so the
sixth invalid sample crosses the disconnection threshold. -/
def c9probe : Monitor.ProbeStatus :=
  { probe_name := "meat_probe_1", channel := 1, is_connected := true
    consecutive_errors := 5, min_temp := some 20, max_temp := some 80
    average_temp := 50, temperature_history := [50] }

/-- Invalid sample used by the C9 witness. -/
def c9reading : Monitor.Reading :=
  { channel := 1, probe_name := "meat_probe_1", temperature_c := 0
    voltage := 0, timestamp := 3, is_valid := false }

theorem c9_witness :
    (Monitor.update_probe_status (7/10) 10 c9probe c9reading).1.min_temp = some 20 ∧
    (Monitor.update_probe_status (7/10) 10 c9probe c9reading).1.temperature_history = [50] ∧
    (Monitor.update_probe_status (7/10) 10 c9probe c9reading).1.consecutive_errors = 6 ∧
    (Monitor.update_probe_status (7/10) 10 c9probe c9reading).1.is_connected = false ∧
    (Monitor.update_probe_status (7/10) 10 c9probe c9reading).2 = true :=
  have h := (c9_invalid_sample_frame (7/10) 10 c9probe c9reading).1 rfl
  ⟨h.1.trans rfl, h.2.2.2.1.trans rfl, h.2.2.2.2.1.trans (by decide),
    (h.2.2.2.2.2.1 (by decide)).1, (h.2.2.2.2.2.1 (by decide)).2⟩

/-- C10: the per-probe current-temperature entry is `None` exactly when the
probe has no recorded reading or its most recent reading is invalid
(independently of the connection flag), and a control tick whose pit
temperature is `None` performs no PID computation and issues no servo
command. -/
theorem c10_invalid_reading_none (probe : Monitor.ProbeStatus) (e : Engine.Bot) (t : ℚ) :
    (Monitor.current_temperature probe = none ↔
      probe.last_reading = none ∨
        ∃ r, probe.last_reading = some r ∧ r.is_valid = false) ∧
    (e.state.pit_temp_c = none → Engine.run_pid_control e t = e) := by
  constructor
  · cases hr : probe.last_reading with
    | none => simp [Monitor.current_temperature, hr]
    | some r =>
      cases hv : r.is_valid with
      | false => simp [Monitor.current_temperature, hr, hv]
      | true => simp [Monitor.current_temperature, hr, hv]
  · intro h
    unfold Engine.run_pid_control
    rw [if_pos (Or.inr (Or.inr h))]

/-- Probe used by the C10 witness: still connected (2 ≤ 5 consecutive
errors) but with an invalid latest reading. -/
def c10probe : Monitor.ProbeStatus :=
  { probe_name := "pit_probe", channel := 0, is_connected := true
    consecutive_errors := 2
    last_reading := some
      { channel := 0, probe_name := "pit_probe", temperature_c := 120
        voltage := 1, timestamp := 7, is_valid := false } }

/-- Engine used by the C10 witness: automatic mode, no pit temperature. -/
def c10bot : Engine.Bot :=
  { pid := { gains := { kp := 2, ki := 1/10, kd := 1 } }
    state := { control_mode := "automatic", pit_temp_c := none } }

theorem c10_witness :
    Monitor.current_temperature c10probe = none ∧
    Engine.run_pid_control c10bot 3 = c10bot :=
  have h := c10_invalid_reading_none c10probe c10bot 3
  ⟨h.1.mpr (Or.inr ⟨_, rfl, rfl⟩), h.2 rfl⟩

/-- Unfolding lemma: `_update_probe_status` always stores the incoming
reading with its temperature replaced by the filtered value. -/
theorem update_last_reading (a m : ℚ) (probe : Monitor.ProbeStatus)
    (reading : Monitor.Reading) :
    (Monitor.update_probe_status a m probe reading).1.last_reading =
      some { reading with temperature_c := Monitor.filtered_temp a m probe reading } := by
  simp only [Monitor.update_probe_status]
  split_ifs <;> rfl

/-- Reading validity predicate unpacked. -/
theorem validate_reading_iff (mn mx t : ℚ) :
    Therm.validate_reading mn mx t = true ↔ mn ≤ t ∧ t ≤ mx := by
  simp [Therm.validate_reading]

/-- Convexity of the low-pass filter: when the filter coefficient lies in
`[0, 1]`, the incoming temperature lies in `[mn, mx]`, and any previously
stored reading's temperature lies in `[mn, mx]`, the filtered temperature
stays in `[mn, mx]`. -/
theorem filtered_temp_mem (a m mn mx : ℚ) (probe : Monitor.ProbeStatus)
    (reading : Monitor.Reading)
    (ha0 : 0 ≤ a) (ha1 : a ≤ 1)
    (hnew : mn ≤ reading.temperature_c ∧ reading.temperature_c ≤ mx)
    (hprev : ∀ prev, probe.last_reading = some prev →
      mn ≤ prev.temperature_c ∧ prev.temperature_c ≤ mx) :
    mn ≤ Monitor.filtered_temp a m probe reading ∧
      Monitor.filtered_temp a m probe reading ≤ mx := by
  unfold Monitor.filtered_temp
  cases hr : probe.last_reading with
  | none => exact hnew
  | some prev =>
    obtain ⟨hp1, hp2⟩ := hprev prev hr
    cases hv : reading.is_valid with
    | false => simpa [hv] using hnew
    | true =>
      simp only [hv, if_true]
      split_ifs with htd hrate
      · constructor <;> nlinarith [hnew.1, hnew.2]
      · have h1 : a * mn ≤ a * reading.temperature_c :=
          mul_le_mul_of_nonneg_left hnew.1 ha0
        have h2 : a * reading.temperature_c ≤ a * mx :=
          mul_le_mul_of_nonneg_left hnew.2 ha0
        have h3 : (1 - a) * mn ≤ (1 - a) * prev.temperature_c :=
          mul_le_mul_of_nonneg_left hp1 (by linarith)
        have h4 : (1 - a) * prev.temperature_c ≤ (1 - a) * mx :=
          mul_le_mul_of_nonneg_left hp2 (by linarith)
        constructor <;> nlinarith
      · exact hnew

/-- C5 (amended): `_process_reading` computes `is_valid` by
`validate_reading` on the raw converted temperature, but
`_update_probe_status` overwrites the stored sample's `temperature_c` with
the low-pass-filtered value.  A stored sample with `is_valid = true`
therefore satisfies `validate_reading` whenever the previously stored
reading's temperature also lay inside the validated range (in particular
whenever there was no previous reading); blending with an earlier
out-of-range reading can push the stored temperature outside the range. -/
theorem c5_valid_sample_validated (a m mn mx : ℚ) (probe : Monitor.ProbeStatus)
    (reading : Monitor.Reading)
    (ha0 : 0 ≤ a) (ha1 : a ≤ 1)
    (hvalid : reading.is_valid = true →
      Therm.validate_reading mn mx reading.temperature_c = true)
    (hprev : ∀ prev, probe.last_reading = some prev →
      mn ≤ prev.temperature_c ∧ prev.temperature_c ≤ mx) :
    ∀ r, (Monitor.update_probe_status a m probe reading).1.last_reading = some r →
      r.is_valid = true → Therm.validate_reading mn mx r.temperature_c = true := by
  intro r hr hv
  rw [update_last_reading] at hr
  obtain rfl :
      ({ reading with temperature_c := Monitor.filtered_temp a m probe reading } :
        Monitor.Reading) = r := Option.some.inj hr
  have hv' : reading.is_valid = true := hv
  have hnew := (validate_reading_iff mn mx reading.temperature_c).mp (hvalid hv')
  exact (validate_reading_iff mn mx _).mpr
    (filtered_temp_mem a m mn mx probe reading ha0 ha1 hnew hprev)

/-- Earlier stored reading for the C5 counterexample: a sample that
failed validation (`is_valid = false`) but kept its out-of-range converted
temperature of 500 °C, exactly as `_process_reading` stores it. -/
def c5prev : Monitor.Reading :=
  { channel := 0, probe_name := "pit_probe", temperature_c := 500
    voltage := 16/5, timestamp := 0, is_valid := false }

/-- Probe state holding the out-of-range invalid reading. -/
def c5probe : Monitor.ProbeStatus :=
  { probe_name := "pit_probe", channel := 0, is_connected := true
    last_reading := some c5prev, consecutive_errors := 1 }

/-- Fresh valid sample for C5: raw temperature 149 °C, accepted by
`validate_reading` against the code's fallback range `(-40, 150)`. -/
def c5reading : Monitor.Reading :=
  { channel := 0, probe_name := "pit_probe", temperature_c := 149
    voltage := 1, timestamp := 1, is_valid := true }

/-- C5 counterexample: the fresh sample is valid for its raw temperature,
yet the Monitor stores it (with `is_valid = true`) carrying the filtered
temperature `0.3·149 + 0.7·500 = 394.7`, which `validate_reading`
rejects. -/
theorem c5_counterexample :
    c5reading.is_valid = Therm.validate_reading (-40) 150 c5reading.temperature_c ∧
    (Monitor.update_probe_status (7/10) 10 c5probe c5reading).1.last_reading =
      some { c5reading with temperature_c := 3947/10 } ∧
    Therm.validate_reading (-40) 150 (3947/10) = false := by
  refine ⟨by decide, ?_, by norm_num [Therm.validate_reading]⟩
  rw [update_last_reading]
  have hft : Monitor.filtered_temp (7/10) 10 c5probe c5reading = 3947/10 := by
    unfold Monitor.filtered_temp
    norm_num [c5probe, c5prev, c5reading]
  rw [hft]

/-- Previously stored reading for the C5 witness: valid and in range. -/
def c5wprev : Monitor.Reading :=
  { channel := 0, probe_name := "pit_probe", temperature_c := 120
    voltage := 1, timestamp := 0, is_valid := true }

/-- Probe state for the C5 witness. -/
def c5wprobe : Monitor.ProbeStatus :=
  { probe_name := "pit_probe", channel := 0, is_connected := true
    last_reading := some c5wprev }

theorem c5_witness :
    Therm.validate_reading (-40) 150 (1287/10) = true := by
  have hmem := c5_valid_sample_validated (7/10) 10 (-40) 150 c5wprobe c5reading
    (by norm_num) (by norm_num) (fun _ => by decide)
    (by
      intro prev h
      obtain rfl : c5wprev = prev := Option.some.inj h
      exact ⟨by norm_num [c5wprev], by norm_num [c5wprev]⟩)
  have hlr : (Monitor.update_probe_status (7/10) 10 c5wprobe c5reading).1.last_reading =
      some { c5reading with temperature_c := 1287/10 } := by
    rw [update_last_reading]
    have hft : Monitor.filtered_temp (7/10) 10 c5wprobe c5reading = 1287/10 := by
      unfold Monitor.filtered_temp
      norm_num [c5wprobe, c5wprev, c5reading]
    rw [hft]
  exact hmem _ hlr rfl
